import Mathlib

/-!
Verification of the selectionBiasChallenge repository.

The repository has three Python source files:
* `step5_create_masked.py` — `create_masked_stipple(stipple_img, mask_img, threshold)`:
  threshold masking of a 2D numpy array.
* `step4_create_block_letter.py` — `_find_font_path()` and
  `create_block_letter_s(height, width, letter, font_size_ratio)`: glyph-mask rendering
  via PIL with a platform-specific font fallback chain.
* `create_meme.py` — `create_statistics_meme(...)`: four-panel shape validation and
  figure export.

Shallow embedding conventions:
* A 2D numpy float array is a `Raster`: explicit row/column counts plus a total pixel
  function into `ℚ` (Python floats are modelled by exact rationals; every comparison the
  claims touch is an exact comparison of stored values).
* Python exceptions become `Except String`; the raised `ValueError` message strings are
  reproduced verbatim from the f-strings in the source.
* PIL and the filesystem are external to the repository; they enter the model as an
  explicit environment (`PILEnv`): which candidate font paths exist, which ones
  `ImageFont.truetype` loads, whether `ImageFont.load_default` succeeds, what the text
  measurement API reports, and what byte value the PIL rasterizer leaves at each canvas
  pixel after the `draw.text` call.  The PIL calls the source does not wrap in
  `try/except` are modelled as total.
-/

namespace SelectionBias

/-- A 2D numpy array of floats: `rows × cols` samples, addressed `pix r c`.
Values outside the bounds are irrelevant padding of the total function. -/
structure Raster where
  rows : Nat
  cols : Nat
  pix : Nat → Nat → ℚ

/-- The numpy `.shape` attribute of a 2D array: the pair `(rows, cols)`. -/
def Raster.shape (a : Raster) : Nat × Nat := (a.rows, a.cols)

/-- How Python prints a 2-tuple shape, e.g. `(10, 12)`. -/
def shapeStr (s : Nat × Nat) : String :=
  "(" ++ toString s.1 ++ ", " ++ toString s.2 ++ ")"

/-- The exact `ValueError` message raised by `create_masked_stipple` on a shape
mismatch (from the f-string in `step5_create_masked.py`). -/
def mismatchMsg (s1 s2 : Nat × Nat) : String :=
  "Images must have the same shape. stipple_img shape: " ++ shapeStr s1 ++
    ", mask_img shape: " ++ shapeStr s2

/-- Embedding of `create_masked_stipple(stipple_img, mask_img, threshold)` from
`step5_create_masked.py`. The source validates the shapes, copies `stipple_img`,
computes the boolean mask `mask_img < threshold` elementwise, and assigns `1.0` at the
selected coordinates of the copy. -/
def create_masked_stipple (stipple_img mask_img : Raster) (threshold : ℚ) :
    Except String Raster :=
  if stipple_img.shape ≠ mask_img.shape then
    Except.error (mismatchMsg stipple_img.shape mask_img.shape)
  else
    Except.ok
      { rows := stipple_img.rows
        cols := stipple_img.cols
        pix := fun r c =>
          if mask_img.pix r c < threshold then 1 else stipple_img.pix r c }

/-- A Python heap of ndarray objects: references are indices into the list. Used to
state mutation (frame) properties: `ndarray.copy()` allocates a fresh object, and
`arr[mask] = 1.0` updates one object in place. -/
abbrev Heap := List Raster

/-- Dereference an ndarray object; out-of-range references read an empty array
(never exercised by the program below). -/
def readRef (h : Heap) (r : Nat) : Raster :=
  h.getD r { rows := 0, cols := 0, pix := fun _ _ => 0 }

/-- Embedding of `create_masked_stipple` as a heap program, statement by statement.
The initial heap holds the caller's two arrays (`stipple_img` at reference 0,
`mask_img` at reference 1).  `stipple_img.copy()` allocates a fresh object at
reference 2; `masked_stipple[mask_area] = 1.0` mutates only that object.  Returns the
final heap together with the result reference (or the raised error). -/
def create_masked_stipple_prog (stipple_img mask_img : Raster) (threshold : ℚ) :
    Heap × Except String Nat :=
  let h0 : Heap := [stipple_img, mask_img]
  if (readRef h0 0).shape ≠ (readRef h0 1).shape then
    (h0, Except.error (mismatchMsg (readRef h0 0).shape (readRef h0 1).shape))
  else
    let h1 : Heap := h0 ++ [readRef h0 0]
    let updated : Raster :=
      { readRef h1 2 with
        pix := fun r c =>
          if (readRef h1 1).pix r c < threshold then 1 else (readRef h1 2).pix r c }
    let h2 : Heap := h1.set 2 updated
    (h2, Except.ok 2)

/-- Concrete 2×2 source raster used in witnesses. -/
def exSrc : Raster :=
  { rows := 2, cols := 2, pix := fun r c => if r = 0 ∧ c = 0 then 0 else 1 / 4 }

/-- Concrete 2×2 mask raster used in witnesses. -/
def exMask : Raster :=
  { rows := 2, cols := 2, pix := fun r c => if r = c then 0 else 1 }

/-- The successful result of `create_masked_stipple`: the copy of the source with
`1.0` written wherever the mask sample is strictly below the threshold. -/
def maskedResult (s m : Raster) (t : ℚ) : Raster :=
  { rows := s.rows
    cols := s.cols
    pix := fun r c => if m.pix r c < t then 1 else s.pix r c }

/-- Concrete 2×3 raster (shape differs from `exSrc`) used in witnesses. -/
def exWide : Raster :=
  { rows := 2, cols := 3, pix := fun _ _ => 1 }

/-- The font object held in the `font` variable of `create_block_letter_s`: either a
successfully loaded `ImageFont.truetype(path, size)` or the `ImageFont.load_default()`
font. -/
inductive ActiveFont where
  | truetype (path : String) (size : Int)
  | defaultFont
deriving DecidableEq

/-- Outcome of the text-measurement block of `create_block_letter_s` when a font is
held: the `draw.textbbox((0,0), ...)` result (newer Pillow), the `draw.textsize`
result (older Pillow), or an `AttributeError`/`TypeError` (then the source falls back
to its size estimate). -/
inductive MeasureResult where
  | bbox (x0 y0 x1 y1 : Int)
  | size (w h : Int)
  | fail
deriving DecidableEq

/-- The external world of `step4_create_block_letter.py`: the platform name, the
filesystem probe, which font files `ImageFont.truetype` loads at a given pixel size,
whether `ImageFont.load_default()` succeeds, the measurement API outcome, and the byte
each canvas pixel holds after the `draw.text` call (given the font used, the computed
anchor `(x, y)`, and the text).  The canvas starts all-255 and `draw.text` is the only
write, so the post-draw canvas fully determines the output; PIL calls the source does
not guard with `try/except` are modelled as total. -/
structure PILEnv where
  system : String
  pathExists : String → Bool
  truetypeLoads : String → Int → Bool
  defaultLoads : Bool
  measure : ActiveFont → String → MeasureResult
  drawWithFont : ActiveFont → ℚ → ℚ → String → Nat → Nat → Fin 256
  drawNoFont : ℚ → ℚ → String → Nat → Nat → Fin 256

/-- The platform-keyed candidate font path lists of `_find_font_path` (verbatim from
the source; the final `else` branch is the Linux list). -/
def font_paths (system : String) : List String :=
  if system = "Windows" then
    ["C:/Windows/Fonts/arialbd.ttf",
     "C:/Windows/Fonts/arial.ttf",
     "C:/Windows/Fonts/calibrib.ttf",
     "C:/Windows/Fonts/calibri.ttf",
     "C:/Windows/Fonts/impact.ttf",
     "C:/Windows/Fonts/timesbd.ttf"]
  else if system = "Darwin" then
    ["/Library/Fonts/Arial Bold.ttf",
     "/Library/Fonts/Arial.ttf",
     "/Library/Fonts/Helvetica Bold.ttf",
     "/Library/Fonts/Helvetica.ttf",
     "/System/Library/Fonts/Helvetica.ttc",
     "/System/Library/Fonts/Supplemental/Arial Bold.ttf"]
  else
    ["/usr/share/fonts/truetype/dejavu/DejaVuSans-Bold.ttf",
     "/usr/share/fonts/truetype/liberation/LiberationSans-Bold.ttf",
     "/usr/share/fonts/truetype/liberation/LiberationSans-Regular.ttf",
     "/usr/share/fonts/truetype/noto/NotoSans-Bold.ttf"]

/-- Embedding of `_find_font_path()`: return the first candidate path for which
`os.path.exists` is true, else `None`.  Note the loop tests existence only — it never
attempts to load. -/
def _find_font_path (env : PILEnv) : Option String :=
  (font_paths env.system).find? fun p => env.pathExists p

/-- Python `int()` applied to a rational: truncation toward zero. -/
def pyInt (q : ℚ) : Int :=
  if 0 ≤ q then q.floor else -(-q).floor

/-- The font-resolution block of `create_block_letter_s`: take the single path
`_find_font_path` returned (if any) and try `ImageFont.truetype` on it, absorbing
`OSError`/`IOError`; if that leaves `font = None`, try `ImageFont.load_default()`,
absorbing any exception.  `none` means the final `font` variable is still `None`. -/
def resolveFont (env : PILEnv) (font_size : Int) : Option ActiveFont :=
  let fromTruetype : Option ActiveFont :=
    match _find_font_path env with
    | some p =>
      if env.truetypeLoads p font_size then some (ActiveFont.truetype p font_size)
      else none
    | none => none
  match fromTruetype with
  | some f => some f
  | none => if env.defaultLoads then some ActiveFont.defaultFont else none

/-- The estimated text metrics of `create_block_letter_s` (used when no font is held
or measurement raised): width `font_size * len(letter) * 0.6`, height `font_size`,
zero vertical offset. -/
def block_letter_estimate (font_size : Int) (letter : String) : ℚ × ℚ × ℚ :=
  ((font_size : ℚ) * (letter.length : ℚ) * (3 / 5), ((font_size : ℚ), 0))

/-- The text-measurement block of `create_block_letter_s`: with a font,
`textbbox` gives `(bbox[2]-bbox[0], bbox[3]-bbox[1], bbox[1])`, `textsize` gives
`(w, h, 0)`, and a measurement exception falls back to the estimate; without a font
the estimate is used directly.  Returns `(text_width, text_height, bbox_y_offset)`. -/
def block_letter_measure (env : PILEnv) (font : Option ActiveFont) (font_size : Int)
    (letter : String) : ℚ × ℚ × ℚ :=
  match font with
  | some f =>
    match env.measure f letter with
    | MeasureResult.bbox x0 y0 x1 _y1 => (((x1 - x0 : Int) : ℚ), (((_y1 - y0 : Int) : ℚ), ((y0 : Int) : ℚ)))
    | MeasureResult.size w h => ((w : ℚ), ((h : ℚ), 0))
    | MeasureResult.fail => block_letter_estimate font_size letter
  | none => block_letter_estimate font_size letter

/-- The canvas of `create_block_letter_s` after the `draw.text` call: compute
`font_size = int(min(height, width) * font_size_ratio)`, resolve the font, measure the
text, center it at `x = (width - text_width)/2`,
`y = (height - text_height)/2 - bbox_y_offset`, and draw (with the font if held, else
the bare `draw.text` path). -/
def block_letter_canvas (env : PILEnv) (height width : Nat) (letter : String)
    (font_size_ratio : ℚ) : Nat → Nat → Fin 256 :=
  let font_size : Int := pyInt (((min height width : Nat) : ℚ) * font_size_ratio)
  let font : Option ActiveFont := resolveFont env font_size
  let tm : ℚ × ℚ × ℚ := block_letter_measure env font font_size letter
  let x : ℚ := ((width : ℚ) - tm.1) / 2
  let y : ℚ := ((height : ℚ) - tm.2.1) / 2 - tm.2.2
  match font with
  | some f => env.drawWithFont f x y letter
  | none => env.drawNoFont x y letter

/-- Embedding of `create_block_letter_s(height, width, letter, font_size_ratio)`:
the `Image.new('L', (width, height), 255)` canvas is drawn on and converted by
`np.array(img, dtype=np.float32) / 255.0` to a `(height, width)` raster.  The source
contains no `raise` statement and performs no validation of its arguments. -/
def create_block_letter_s (env : PILEnv) (height width : Nat) (letter : String)
    (font_size_ratio : ℚ) : Raster :=
  { rows := height
    cols := width
    pix := fun r c =>
      ((block_letter_canvas env height width letter font_size_ratio r c).val : ℚ) / 255 }

/-- A PIL environment in which no candidate font path exists, `load_default`
succeeds, and the rasterizer leaves every canvas pixel at the background value 255
(as PIL does when the drawn text is the empty string). -/
def plainEnv : PILEnv :=
  { system := "Linux"
    pathExists := fun _ => false
    truetypeLoads := fun _ _ => false
    defaultLoads := true
    measure := fun _ _ => MeasureResult.fail
    drawWithFont := fun _ _ _ _ _ _ => 255
    drawNoFont := fun _ _ _ _ _ => 255 }

/-- A PIL environment in which every Linux candidate path exists, the first one
(`DejaVuSans-Bold.ttf`) fails to load in `ImageFont.truetype`, every later one loads,
and `load_default` succeeds. -/
def skipEnv : PILEnv :=
  { system := "Linux"
    pathExists := fun _ => true
    truetypeLoads := fun p _ =>
      p != "/usr/share/fonts/truetype/dejavu/DejaVuSans-Bold.ttf"
    defaultLoads := true
    measure := fun _ _ => MeasureResult.fail
    drawWithFont := fun _ _ _ _ _ _ => 255
    drawNoFont := fun _ _ _ _ _ => 255 }

/-- A PIL environment in which every candidate path exists and loads. -/
def loadEnv : PILEnv :=
  { system := "Linux"
    pathExists := fun _ => true
    truetypeLoads := fun _ _ => true
    defaultLoads := true
    measure := fun _ _ => MeasureResult.fail
    drawWithFont := fun _ _ _ _ _ _ => 255
    drawNoFont := fun _ _ _ _ _ => 255 }

/-- The exact `ValueError` message raised by `create_statistics_meme` for the panel
named `name` (from the f-string in `create_meme.py`). -/
def panel_mismatch_msg (name : String) (got expected : Nat × Nat) : String :=
  "All images must have the same shape. " ++ name ++ "_img shape: " ++ shapeStr got ++
    ", expected: " ++ shapeStr expected

/-- The validation loop of `create_statistics_meme`: walk the `images` dict in
insertion order and raise on the first panel whose shape differs from `img_shape`. -/
def check_panels (expected : Nat × Nat) : List (String × Raster) → Except String Unit
  | [] => Except.ok ()
  | (name, img) :: rest =>
    if img.shape ≠ expected then
      Except.error (panel_mismatch_msg name img.shape expected)
    else check_panels expected rest

/-- Embedding of the validation phase of `create_statistics_meme(...)` from
`create_meme.py`: `img_shape = original_img.shape`, then every entry of the `images`
dict is checked against it in insertion order.  The figure layout and `savefig` that
follow a successful validation are presentation-layer work outside the core and are
abstracted as the `ok` result. -/
def create_statistics_meme
    (original_img stipple_img block_letter_img masked_stipple_img : Raster) :
    Except String Unit :=
  check_panels original_img.shape
    [("original", original_img), ("stipple", stipple_img),
     ("block_letter", block_letter_img), ("masked_stipple", masked_stipple_img)]

/-- C1: for equal-shaped inputs, `create_masked_stipple` succeeds with a raster of the
same shape whose every in-bounds sample is `1.0` where the mask sample is strictly
below the threshold and the source sample otherwise; a mask sample exactly equal to
the threshold keeps the source sample. -/
theorem applyMask_pointwise_spec (s m : Raster) (t : ℚ) (hsm : s.shape = m.shape) :
    ∃ res, create_masked_stipple s m t = Except.ok res ∧
      res.shape = s.shape ∧
      (∀ r c, r < res.rows → c < res.cols →
        (m.pix r c < t → res.pix r c = 1) ∧
        (¬ m.pix r c < t → res.pix r c = s.pix r c)) ∧
      (∀ r c, r < res.rows → c < res.cols → m.pix r c = t →
        res.pix r c = s.pix r c) := by
  refine ⟨maskedResult s m t, ?_, rfl, ?_, ?_⟩
  · simp [create_masked_stipple, hsm, maskedResult]
  · intro r c _ _
    constructor
    · intro hlt; simp [maskedResult, hlt]
    · intro hge; simp [maskedResult, hge]
  · intro r c _ _ heq
    simp [maskedResult, heq]

/-- Witness for C1 at concrete inputs. -/
theorem applyMask_pointwise_spec_witness :
    exSrc.shape = exMask.shape ∧
      ∃ res, create_masked_stipple exSrc exMask (1 / 2) = Except.ok res ∧
        res.shape = exSrc.shape ∧
        (∀ r c, r < res.rows → c < res.cols →
          (exMask.pix r c < 1 / 2 → res.pix r c = 1) ∧
          (¬ exMask.pix r c < 1 / 2 → res.pix r c = exSrc.pix r c)) ∧
        (∀ r c, r < res.rows → c < res.cols → exMask.pix r c = 1 / 2 →
          res.pix r c = exSrc.pix r c) :=
  ⟨by decide, applyMask_pointwise_spec exSrc exMask (1 / 2) (by decide)⟩

/-- C2: `create_masked_stipple` raises exactly when the shapes differ; the raised
message is the source's f-string, which contains both shapes; on a raise the heap is
untouched (no result object exists, neither input was modified), and this mismatch
`ValueError` is the only error the function can raise. -/
theorem applyMask_shape_mismatch_error (s m : Raster) (t : ℚ) :
    ((∃ e, (create_masked_stipple_prog s m t).2 = Except.error e) ↔ s.shape ≠ m.shape) ∧
    (∀ e, (create_masked_stipple_prog s m t).2 = Except.error e →
      e = mismatchMsg s.shape m.shape ∧
      (∃ pre mid, e = pre ++ shapeStr s.shape ++ mid ++ shapeStr m.shape) ∧
      (create_masked_stipple_prog s m t).1 = [s, m]) := by
  by_cases hsm : s.shape = m.shape
  · constructor
    · simp [create_masked_stipple_prog, readRef, hsm]
    · intro e he
      simp [create_masked_stipple_prog, readRef, hsm] at he
  · constructor
    · simp [create_masked_stipple_prog, readRef, hsm]
    · intro e he
      simp only [create_masked_stipple_prog, readRef, List.getD] at he ⊢
      simp only [show ([s, m].get? 0).getD _ = s from rfl,
        show ([s, m].get? 1).getD _ = m from rfl] at he ⊢
      rw [if_pos hsm] at he ⊢
      refine ⟨(Except.error.inj he).symm, ?_, rfl⟩
      exact ⟨"Images must have the same shape. stipple_img shape: ", ", mask_img shape: ",
        by rw [(Except.error.inj he).symm]; rfl⟩

/-- Witness for C2 at a concrete shape mismatch: a 2×2 source against a 2×3 mask. -/
theorem applyMask_shape_mismatch_error_witness :
    ∃ e, (create_masked_stipple_prog exSrc exWide (1 / 2)).2 = Except.error e :=
  (applyMask_shape_mismatch_error exSrc exWide (1 / 2)).1.mpr (by decide)

/-- C6: the heap program never mutates its arguments: for equal-shaped inputs, after
the call the objects the caller passed in (references 0 and 1) hold exactly their
original values; only the freshly allocated copy was written. -/
theorem applyMask_no_mutation (s m : Raster) (t : ℚ) (hsm : s.shape = m.shape) :
    readRef (create_masked_stipple_prog s m t).1 0 = s ∧
    readRef (create_masked_stipple_prog s m t).1 1 = m := by
  simp only [create_masked_stipple_prog, readRef, List.getD]
  simp only [show ([s, m].get? 0).getD _ = s from rfl,
    show ([s, m].get? 1).getD _ = m from rfl]
  rw [if_neg (by simp [hsm])]
  exact ⟨rfl, rfl⟩

/-- Witness for C6 at concrete equal-shaped inputs. -/
theorem applyMask_no_mutation_witness :
    exSrc.shape = exMask.shape ∧
      (readRef (create_masked_stipple_prog exSrc exMask (1 / 2)).1 0 = exSrc ∧
       readRef (create_masked_stipple_prog exSrc exMask (1 / 2)).1 1 = exMask) :=
  ⟨by decide, applyMask_no_mutation exSrc exMask (1 / 2) (by decide)⟩

/-- C7: for equal-shaped inputs whose mask samples lie in `[0,1]`, threshold `0.0`
erases nothing (the result equals the source at every in-bounds coordinate), and
threshold `1.0` sets to `1.0` exactly the coordinates whose mask sample is strictly
below `1.0`, leaving the others at the source value. -/
theorem applyMask_threshold_boundary (s m : Raster) (hsm : s.shape = m.shape)
    (hrange : ∀ r, r < m.rows → ∀ c, c < m.cols → 0 ≤ m.pix r c ∧ m.pix r c ≤ 1) :
    (∃ res0, create_masked_stipple s m 0 = Except.ok res0 ∧ res0.shape = s.shape ∧
      ∀ r c, r < res0.rows → c < res0.cols → res0.pix r c = s.pix r c) ∧
    (∃ res1, create_masked_stipple s m 1 = Except.ok res1 ∧ res1.shape = s.shape ∧
      ∀ r c, r < res1.rows → c < res1.cols →
        (m.pix r c < 1 → res1.pix r c = 1) ∧
        (¬ m.pix r c < 1 → res1.pix r c = s.pix r c)) := by
  have hrows : s.rows = m.rows := congrArg Prod.fst hsm
  have hcols : s.cols = m.cols := congrArg Prod.snd hsm
  constructor
  · refine ⟨maskedResult s m 0, ?_, rfl, ?_⟩
    · simp [create_masked_stipple, hsm, maskedResult]
    · intro r c hr hc
      have h0 : 0 ≤ m.pix r c :=
        (hrange r (hrows ▸ hr) c (hcols ▸ hc)).1
      simp [maskedResult, not_lt.mpr h0]
  · refine ⟨maskedResult s m 1, ?_, rfl, ?_⟩
    · simp [create_masked_stipple, hsm, maskedResult]
    · intro r c _ _
      constructor
      · intro hlt; simp [maskedResult, hlt]
      · intro hge; simp [maskedResult, hge]

/-- Witness for C7 at concrete inputs with mask samples in `[0,1]`. -/
theorem applyMask_threshold_boundary_witness :
    (exSrc.shape = exMask.shape ∧
      ∀ r, r < exMask.rows → ∀ c, c < exMask.cols →
        0 ≤ exMask.pix r c ∧ exMask.pix r c ≤ 1) ∧
    (∃ res0, create_masked_stipple exSrc exMask 0 = Except.ok res0 ∧
      res0.shape = exSrc.shape ∧
      ∀ r c, r < res0.rows → c < res0.cols → res0.pix r c = exSrc.pix r c) :=
  ⟨⟨by decide, by decide⟩,
    (applyMask_threshold_boundary exSrc exMask (by decide) (by decide)).1⟩

/-- C10: masking is idempotent in the source argument: applying the same mask and
threshold to the first result changes nothing (the two results agree at every
coordinate, and both calls succeed). -/
theorem applyMask_idempotent (s m : Raster) (t : ℚ) (hsm : s.shape = m.shape) :
    ∃ res1, create_masked_stipple s m t = Except.ok res1 ∧
      ∃ res2, create_masked_stipple res1 m t = Except.ok res2 ∧
        res2.shape = res1.shape ∧ ∀ r c, res2.pix r c = res1.pix r c := by
  have hres1 : (maskedResult s m t).shape = m.shape := hsm
  refine ⟨maskedResult s m t, ?_,
          maskedResult (maskedResult s m t) m t, ?_, rfl, ?_⟩
  · simp [create_masked_stipple, hsm, maskedResult]
  · simp only [create_masked_stipple]
    rw [if_neg (not_not_intro hres1)]
    rfl
  · intro r c
    by_cases hlt : m.pix r c < t
    · simp [maskedResult, hlt]
    · simp [maskedResult, hlt]

/-- Witness for C10 at concrete equal-shaped inputs. -/
theorem applyMask_idempotent_witness :
    exSrc.shape = exMask.shape ∧
      ∃ res1, create_masked_stipple exSrc exMask (1 / 2) = Except.ok res1 ∧
        ∃ res2, create_masked_stipple res1 exMask (1 / 2) = Except.ok res2 ∧
          res2.shape = res1.shape ∧ ∀ r c, res2.pix r c = res1.pix r c :=
  ⟨by decide, applyMask_idempotent exSrc exMask (1 / 2) (by decide)⟩

/-- Splitting lemma for `List.find?`: a found element is in the list, satisfies the
predicate, and everything before it fails the predicate. -/
theorem find?_first_split {α : Type} (p : α → Bool) :
    ∀ (l : List α) (a : α), l.find? p = some a →
      p a = true ∧ ∃ l1 l2, l = l1 ++ a :: l2 ∧ ∀ x ∈ l1, p x = false
  | [], a, h => by simp [List.find?] at h
  | x :: xs, a, h => by
    cases hx : p x with
    | true =>
      rw [List.find?_cons_of_pos _ hx] at h
      cases Option.some.inj h
      exact ⟨hx, [], xs, rfl, by intro z hz; cases hz⟩
    | false =>
      rw [List.find?_cons_of_neg _ (by simp [hx])] at h
      obtain ⟨hp, l1, l2, heq, hall⟩ := find?_first_split p xs a h
      refine ⟨hp, x :: l1, l2, by rw [heq]; rfl, ?_⟩
      intro z hz
      rcases List.mem_cons.mp hz with rfl | hz2
      · exact hx
      · exact hall z hz2

/-- C3 counterexample: with positive dimensions and the empty character string,
`create_block_letter_s` reports no error — it silently returns the all-background
2×2 raster; and with height 0 it silently returns an empty `(0, 5)` raster.  The
source contains no `raise` and no validation of `height`, `width` or `letter`. -/
theorem renderGlyph_no_validation_cx :
    (create_block_letter_s plainEnv 2 2 "" (9 / 10)).rows = 2 ∧
    (create_block_letter_s plainEnv 2 2 "" (9 / 10)).cols = 2 ∧
    (∀ r c, (create_block_letter_s plainEnv 2 2 "" (9 / 10)).pix r c = 1) ∧
    (create_block_letter_s plainEnv 0 5 "S" (9 / 10)).rows = 0 ∧
    (create_block_letter_s plainEnv 0 5 "S" (9 / 10)).cols = 5 := by
  refine ⟨rfl, rfl, ?_, rfl, rfl⟩
  intro r c
  have hcv : block_letter_canvas plainEnv 2 2 "" (9 / 10) r c = 255 := rfl
  show ((block_letter_canvas plainEnv 2 2 "" (9 / 10) r c).val : ℚ) / 255 = 1
  rw [hcv]
  show ((255 : ℕ) : ℚ) / 255 = 1
  norm_num

/-- C3 amended: `create_block_letter_s` performs no input validation and has no error
path: for every environment and all arguments — including zero dimensions and the
empty character string — it returns a raster of shape `(height, width)`. -/
theorem renderGlyph_total_shape (env : PILEnv) (height width : Nat) (letter : String)
    (ratio : ℚ) :
    (create_block_letter_s env height width letter ratio).rows = height ∧
    (create_block_letter_s env height width letter ratio).cols = width :=
  ⟨rfl, rfl⟩

/-- C4 counterexample: on the Linux list, when the first candidate path exists but
fails to load while the second exists and loads, the active font is the default
font — the later candidates are never attempted, contradicting "the first path that
both exists and loads successfully becomes the active font". -/
theorem font_resolution_skips_later_cx :
    skipEnv.pathExists
        "/usr/share/fonts/truetype/liberation/LiberationSans-Bold.ttf" = true ∧
    skipEnv.truetypeLoads
        "/usr/share/fonts/truetype/liberation/LiberationSans-Bold.ttf" 10 = true ∧
    skipEnv.truetypeLoads
        "/usr/share/fonts/truetype/dejavu/DejaVuSans-Bold.ttf" 10 = false ∧
    _find_font_path skipEnv =
      some "/usr/share/fonts/truetype/dejavu/DejaVuSans-Bold.ttf" ∧
    resolveFont skipEnv 10 = some ActiveFont.defaultFont ∧
    resolveFont skipEnv 10 ≠
      some (ActiveFont.truetype
        "/usr/share/fonts/truetype/liberation/LiberationSans-Bold.ttf" 10) := by
  refine ⟨rfl, by decide, by decide, by decide, by decide, by decide⟩

/-- C4 amended: `_find_font_path` returns the first candidate path (in the listed,
platform-specific order) that exists on the filesystem, without attempting any load;
if that single path loads it becomes the active font, and if it fails to load the
renderer falls back to the default font (or no font) — no later candidate is ever
attempted. -/
theorem font_resolution_first_existing (env : PILEnv) (sz : Int) :
    (∀ p, _find_font_path env = some p →
      env.pathExists p = true ∧
      ∃ l1 l2, font_paths env.system = l1 ++ p :: l2 ∧
        ∀ q ∈ l1, env.pathExists q = false) ∧
    (∀ p, _find_font_path env = some p → env.truetypeLoads p sz = true →
      resolveFont env sz = some (ActiveFont.truetype p sz)) ∧
    (∀ p, _find_font_path env = some p → env.truetypeLoads p sz = false →
      resolveFont env sz =
        (if env.defaultLoads then some ActiveFont.defaultFont else none)) := by
  refine ⟨?_, ?_, ?_⟩
  · intro p hp
    exact find?_first_split _ _ _ hp
  · intro p hp hload
    simp [resolveFont, hp, hload]
  · intro p hp hload
    simp [resolveFont, hp, hload]

/-- Witness for C4 amended: in an environment where every Linux path exists and
loads, the active font is the truetype font at the first listed path. -/
theorem font_resolution_first_existing_witness :
    resolveFont loadEnv 10 =
      some (ActiveFont.truetype
        "/usr/share/fonts/truetype/dejavu/DejaVuSans-Bold.ttf" 10) :=
  (font_resolution_first_existing loadEnv 10).2.1
    "/usr/share/fonts/truetype/dejavu/DejaVuSans-Bold.ttf" (by decide) rfl

/-- C5: for positive dimensions and a non-empty character string,
`create_block_letter_s` returns a raster of exactly shape `(height, width)` whose
every sample lies in `[0, 1]` and is the corresponding 8-bit canvas byte divided
by 255. -/
theorem renderGlyph_shape_and_range (env : PILEnv) (height width : Nat)
    (letter : String) (ratio : ℚ)
    (_hh : 0 < height) (_hw : 0 < width) (_hl : letter ≠ "") :
    (create_block_letter_s env height width letter ratio).rows = height ∧
    (create_block_letter_s env height width letter ratio).cols = width ∧
    ∀ r c,
      0 ≤ (create_block_letter_s env height width letter ratio).pix r c ∧
      (create_block_letter_s env height width letter ratio).pix r c ≤ 1 ∧
      (create_block_letter_s env height width letter ratio).pix r c =
        ((block_letter_canvas env height width letter ratio r c).val : ℚ) / 255 := by
  refine ⟨rfl, rfl, ?_⟩
  intro r c
  have hb : (block_letter_canvas env height width letter ratio r c).val ≤ 255 :=
    Nat.lt_succ_iff.mp (block_letter_canvas env height width letter ratio r c).isLt
  refine ⟨?_, ?_, rfl⟩
  · show (0 : ℚ) ≤
      ((block_letter_canvas env height width letter ratio r c).val : ℚ) / 255
    exact div_nonneg (Nat.cast_nonneg _) (by norm_num)
  · show ((block_letter_canvas env height width letter ratio r c).val : ℚ) / 255 ≤ 1
    rw [div_le_one (by norm_num : (0 : ℚ) < 255)]
    exact_mod_cast hb

/-- Witness for C5 at a concrete environment and input. -/
theorem renderGlyph_shape_and_range_witness :
    (0 < 2 ∧ 0 < 3 ∧ "S" ≠ "") ∧
      ((create_block_letter_s plainEnv 2 3 "S" (9 / 10)).rows = 2 ∧
       (create_block_letter_s plainEnv 2 3 "S" (9 / 10)).cols = 3 ∧
       ∀ r c,
         0 ≤ (create_block_letter_s plainEnv 2 3 "S" (9 / 10)).pix r c ∧
         (create_block_letter_s plainEnv 2 3 "S" (9 / 10)).pix r c ≤ 1 ∧
         (create_block_letter_s plainEnv 2 3 "S" (9 / 10)).pix r c =
           ((block_letter_canvas plainEnv 2 3 "S" (9 / 10) r c).val : ℚ) / 255) :=
  ⟨⟨by decide, by decide, by decide⟩,
    renderGlyph_shape_and_range plainEnv 2 3 "S" (9 / 10)
      (by decide) (by decide) (by decide)⟩

/-- C8: `create_statistics_meme` validates, before any layout work, that all four
panels share one common shape: it succeeds exactly when a common shape exists, and
otherwise raises the `ValueError` whose message names the first offending panel
together with its shape and the expected (first panel's) shape. -/
theorem meme_panel_validation (o s b m : Raster) :
    (create_statistics_meme o s b m = Except.ok () ↔
      ∃ common, o.shape = common ∧ s.shape = common ∧ b.shape = common ∧
        m.shape = common) ∧
    (∀ e, create_statistics_meme o s b m = Except.error e →
      ∃ name got, got ≠ o.shape ∧ e = panel_mismatch_msg name got o.shape ∧
        ((name = "stipple" ∧ got = s.shape) ∨
         (name = "block_letter" ∧ got = b.shape) ∨
         (name = "masked_stipple" ∧ got = m.shape))) := by
  by_cases hs : s.shape = o.shape
  · by_cases hb : b.shape = o.shape
    · by_cases hm : m.shape = o.shape
      · constructor
        · simp only [create_statistics_meme, check_panels]
          rw [if_neg (not_not_intro rfl), if_neg (not_not_intro hs),
            if_neg (not_not_intro hb), if_neg (not_not_intro hm)]
          simp [hs, hb, hm]
        · intro e he
          simp only [create_statistics_meme, check_panels] at he
          rw [if_neg (not_not_intro rfl), if_neg (not_not_intro hs),
            if_neg (not_not_intro hb), if_neg (not_not_intro hm)] at he
          cases he
      · constructor
        · simp only [create_statistics_meme, check_panels]
          rw [if_neg (not_not_intro rfl), if_neg (not_not_intro hs),
            if_neg (not_not_intro hb), if_pos hm]
          constructor
          · intro he; cases he
          · rintro ⟨common, ho, -, -, hmc⟩
            exact absurd (hmc.trans ho.symm) hm
        · intro e he
          simp only [create_statistics_meme, check_panels] at he
          rw [if_neg (not_not_intro rfl), if_neg (not_not_intro hs),
            if_neg (not_not_intro hb), if_pos hm] at he
          exact ⟨"masked_stipple", m.shape, hm, (Except.error.inj he).symm,
            Or.inr (Or.inr ⟨rfl, rfl⟩)⟩
    · constructor
      · simp only [create_statistics_meme, check_panels]
        rw [if_neg (not_not_intro rfl), if_neg (not_not_intro hs), if_pos hb]
        constructor
        · intro he; cases he
        · rintro ⟨common, ho, -, hbc, -⟩
          exact absurd (hbc.trans ho.symm) hb
      · intro e he
        simp only [create_statistics_meme, check_panels] at he
        rw [if_neg (not_not_intro rfl), if_neg (not_not_intro hs), if_pos hb] at he
        exact ⟨"block_letter", b.shape, hb, (Except.error.inj he).symm,
          Or.inr (Or.inl ⟨rfl, rfl⟩)⟩
  · constructor
    · simp only [create_statistics_meme, check_panels]
      rw [if_neg (not_not_intro rfl), if_pos hs]
      constructor
      · intro he; cases he
      · rintro ⟨common, ho, hsc, -, -⟩
        exact absurd (hsc.trans ho.symm) hs
    · intro e he
      simp only [create_statistics_meme, check_panels] at he
      rw [if_neg (not_not_intro rfl), if_pos hs] at he
      exact ⟨"stipple", s.shape, hs, (Except.error.inj he).symm,
        Or.inl ⟨rfl, rfl⟩⟩

/-- Witness for C8: four equal-shaped panels validate successfully. -/
theorem meme_panel_validation_witness :
    create_statistics_meme exSrc exMask exSrc exMask = Except.ok () :=
  (meme_panel_validation exSrc exMask exSrc exMask).1.mpr
    ⟨(2, 2), rfl, rfl, rfl, rfl⟩

end SelectionBias
